import Mathlib

/-!
Shallow embedding of the core pipeline of `src/src/app/page.tsx`
(`MobileObjectDetection`): camera setup with rear→front fallback,
surface sizing, the per-frame detection loop, the overlay renderer
`drawDetections`, the freeze/capture subsystem (`captureImage`,
`resumeCamera`) and the export function (`saveImage`).

Conventions of the embedding:
* Machine state held in React `useState`/`useRef` hooks becomes explicit
  record fields of `CompState`.
* The 2D canvas context is modelled by `Canvas`: its `content` is the list
  of drawing operations performed since the last full-surface `clearRect`
  (a full-surface clear makes every earlier operation invisible, so the
  pixel content of the surface is determined by `content`).
* A video frame is identified by a `Frame` value standing for its pixel data.
* Numbers that are JavaScript doubles in the source are modelled as `ℚ`;
  all values appearing in the program are exact in `ℚ`.
* Asynchrony (the `requestAnimationFrame` loop, the awaited `model.detect`
  call, button presses and the React effect cleanup) is modelled by the
  event machine `step` on `LoopState`.
-/

namespace CameraTest

/-- Identifier standing for the pixel data of one video frame. -/
abbrev Frame := Nat

/-- `cocossd.DetectedObject`: class label, confidence score and bounding box
`[x, y, width, height]` (source line 126). The `class` field is named `cls`
because `class` is a Lean keyword. -/
structure Prediction where
  cls : String
  score : ℚ
  bbox : ℚ × ℚ × ℚ × ℚ
deriving DecidableEq, Repr

/-- The page's `DetectedObject` type (source lines 9-13): bbox is optional. -/
structure DetectedObject where
  cls : String
  score : ℚ
  bbox : Option (ℚ × ℚ × ℚ × ℚ)
deriving DecidableEq, Repr

/-- The mapping applied at source lines 205-209 and 316-320:
`{ class: pred.class, score: pred.score, bbox: pred.bbox }`. -/
def toDetectedObject (p : Prediction) : DetectedObject :=
  ⟨p.cls, p.score, some p.bbox⟩

/-- JavaScript `Math.round`: round half away from zero towards `+∞`. -/
def jsRound (q : ℚ) : ℤ := ⌊q + 1 / 2⌋

/-- The label text drawn at source lines 140-144:
`` `${prediction.class} ${Math.round(prediction.score * 100)}%` ``. -/
def labelText (p : Prediction) : String :=
  p.cls ++ " " ++ toString (jsRound (p.score * 100)) ++ "%"

/-- One drawing operation on a 2D canvas context. -/
inductive DrawOp where
  | clearRect (x y w h : ℚ)
  | drawVideo (frame : Frame) (x y w h : ℚ)
  | strokeRect (style : String) (lineWidth : ℚ) (x y w h : ℚ)
  | fillRect (style : String) (x y w h : ℚ)
  | fillText (style font text : String) (x y : ℚ)
deriving DecidableEq, Repr

/-- `true` exactly on `drawVideo` operations (video-frame pixels). -/
def DrawOp.isDrawVideo : DrawOp → Bool
  | .drawVideo _ _ _ _ _ => true
  | _ => false

/-- A canvas: intrinsic resolution plus the operations performed since the
last full-surface clear, which determine its visible pixel content. -/
structure Canvas where
  width : ℚ
  height : ℚ
  content : List DrawOp
deriving DecidableEq, Repr

/-- `ctx.clearRect(x, y, w, h)`: a clear covering the whole surface resets
the visible content; a partial clear is recorded as an operation. -/
def Canvas.clearRect (c : Canvas) (x y w h : ℚ) : Canvas :=
  if x = 0 ∧ y = 0 ∧ w = c.width ∧ h = c.height then { c with content := [] }
  else { c with content := c.content ++ [DrawOp.clearRect x y w h] }

/-- `ctx.drawImage(video, x, y, w, h)`. -/
def Canvas.drawVideo (c : Canvas) (f : Frame) (x y w h : ℚ) : Canvas :=
  { c with content := c.content ++ [DrawOp.drawVideo f x y w h] }

/-- `ctx.strokeRect` with the current `strokeStyle` and `lineWidth`. -/
def Canvas.strokeRect (c : Canvas) (style : String) (lineWidth x y w h : ℚ) : Canvas :=
  { c with content := c.content ++ [DrawOp.strokeRect style lineWidth x y w h] }

/-- `ctx.fillRect` with the current `fillStyle`. -/
def Canvas.fillRect (c : Canvas) (style : String) (x y w h : ℚ) : Canvas :=
  { c with content := c.content ++ [DrawOp.fillRect style x y w h] }

/-- `ctx.fillText` with the current `fillStyle` and `font`. -/
def Canvas.fillText (c : Canvas) (style font text : String) (x y : ℚ) : Canvas :=
  { c with content := c.content ++ [DrawOp.fillText style font text x y] }

/-- `canvas.toDataURL('image/png')`: returns the sentinel `'data:,'`
(modelled as `none`) when the canvas has a zero dimension, otherwise an
encoding of the canvas content. -/
def toDataURL (c : Canvas) : Option Canvas :=
  if c.width = 0 ∨ c.height = 0 then none else some c

/-- The three operations the loop body of `drawDetections`
(source lines 125-145) performs for one prediction. -/
def detectionOps (p : Prediction) : List DrawOp :=
  let (x, y, w, h) := p.bbox
  [ DrawOp.strokeRect "#00FF00" 2 x y w h,
    DrawOp.fillRect "rgba(0, 0, 0, 0.7)" x (y - 25) w 25,
    DrawOp.fillText "#ffffff" "16px \"Roboto Mono\", monospace" (labelText p) (x + 5) (y - 7) ]

/-- Body of the `predictions.forEach` loop of `drawDetections`
(source lines 125-145). -/
def drawPrediction (c : Canvas) (p : Prediction) : Canvas :=
  let (x, y, w, h) := p.bbox
  let c1 := c.strokeRect "#00FF00" 2 x y w h
  let c2 := c1.fillRect "rgba(0, 0, 0, 0.7)" x (y - 25) w 25
  c2.fillText "#ffffff" "16px \"Roboto Mono\", monospace" (labelText p) (x + 5) (y - 7)

/-- `drawDetections` (source lines 121-146): clears the whole surface,
then draws box, label background and label text for each prediction in
the order of the prediction list. -/
def drawDetections (c : Canvas) (predictions : List Prediction) : Canvas :=
  let c0 := c.clearRect 0 0 c.width c.height
  predictions.foldl drawPrediction c0

/-- State of the `video` element: `readyState`, the current frame, and the
native resolution `videoWidth × videoHeight`. -/
structure VideoState where
  readyState : Nat
  frame : Frame
  videoWidth : ℚ
  videoHeight : ℚ
deriving DecidableEq, Repr

/-- The component's mutable state: the `useState`/`useRef` hooks of
`MobileObjectDetection` (source lines 17-29) plus the screen overlay
canvas and the video element the refs point at. -/
structure CompState where
  modelLoaded : Bool
  isLoading : Bool
  error : Option String
  isFrontCamera : Bool
  streamRef : Option Nat
  detectedObjects : List DetectedObject
  isPaused : Bool
  capturedImage : Option Canvas
  lastPredictions : List Prediction
  video : VideoState
  screenCanvas : Canvas
deriving DecidableEq, Repr

/-- Error message set by `setupCamera` on terminal failure (lines 103/106). -/
def cameraFailMsg : String := "カメラの起動に失敗しました"

/-- Error message set by the detection loop's catch (line 327). -/
def detectErrorMsg : String := "物体検出中にエラーが発生しました"

/-- Error message set when `toDataURL` yields no image data (line 214). -/
def captureFailMsg : String := "画像のキャプチャに失敗しました"

/-- `setupCamera` (source lines 33-109), with the recursion unfolded: the
recursive call always passes `useFrontCamera = true`, which does not
recurse, so the depth is at most two.  `env b` is the result of
`navigator.mediaDevices.getUserMedia` for `facingMode` front (`b = true`)
or rear (`b = false`): `some stream` on success, `none` on rejection.
On success the stream is stored and the error state cleared (line 91).
On a rear failure the front camera is attempted and — because the inner
`setupCamera(true)` catches its own failure and therefore never throws —
`setIsFrontCamera(true)` (line 101) runs whether or not the front attempt
succeeded.  On a front failure the error is set immediately (line 106).
Stopping the old stream's tracks (lines 36-38) has no observable effect on
any field modelled here and is not represented. -/
def setupCamera (env : Bool → Option Nat) (s : CompState) (useFrontCamera : Bool) :
    CompState :=
  match env useFrontCamera with
  | some stream => { s with streamRef := some stream, error := none }
  | none =>
      if useFrontCamera then { s with error := some cameraFailMsg }
      else
        match env true with
        | some stream =>
            { s with streamRef := some stream, error := none, isFrontCamera := true }
        | none => { s with error := some cameraFailMsg, isFrontCamera := true }

/-- Result of the `onloadedmetadata` handler (source lines 58-89): the CSS
display sizes applied to the video element and the overlay canvas, and the
canvas intrinsic drawing resolution. -/
structure SizedSurfaces where
  videoStyleWidth : ℚ
  videoStyleHeight : ℚ
  canvasStyleWidth : ℚ
  canvasStyleHeight : ℚ
  canvasWidth : ℚ
  canvasHeight : ℚ
deriving DecidableEq, Repr

/-- The Surface Sizer, i.e. the body of the `onloadedmetadata` handler
(source lines 58-89): `scale = min(containerWidth / videoWidth,
containerHeight / videoHeight)`; the scaled size becomes the CSS size of
both the video element and the canvas; the canvas intrinsic resolution is
set to the video's native resolution. -/
def onLoadedMetadata (videoWidth videoHeight containerWidth containerHeight : ℚ) :
    SizedSurfaces :=
  let scale := min (containerWidth / videoWidth) (containerHeight / videoHeight)
  let scaledWidth := videoWidth * scale
  let scaledHeight := videoHeight * scale
  ⟨scaledWidth, scaledHeight, scaledWidth, scaledHeight, videoWidth, videoHeight⟩

/-- The temporary capture canvas built by `captureImage`
(source lines 170-194): a freshly created canvas with the screen canvas's
intrinsic resolution, onto which the current video frame is drawn and —
when `lastPredictions` is non-empty — `drawDetections` is applied. -/
def captureComposite (s : CompState) : Canvas :=
  let base : Canvas := ⟨s.screenCanvas.width, s.screenCanvas.height, []⟩
  let withFrame := base.drawVideo s.video.frame 0 0 base.width base.height
  if s.lastPredictions.length > 0 then drawDetections withFrame s.lastPredictions
  else withFrame

/-- `captureImage` (source lines 150-220).  The DOM refs and the 2D
contexts are always available after mount, so only the `readyState` guard
(line 157) and the `toDataURL` check (line 200) can make it bail out.  On
success it stores the encoded image, sets `isPaused`, and saves the mapped
`lastPredictions` as `detectedObjects` (lines 201-209). -/
def captureImage (s : CompState) : CompState :=
  if s.video.readyState ≠ 4 then s
  else
    match toDataURL (captureComposite s) with
    | some img =>
        { s with capturedImage := some img
               , isPaused := true
               , detectedObjects := s.lastPredictions.map toDetectedObject }
    | none => { s with error := some captureFailMsg }

/-- `resumeCamera` (source lines 224-227). -/
def resumeCamera (s : CompState) : CompState :=
  { s with isPaused := false, capturedImage := none }

/-- The JSON record built by `saveImage` (source lines 241-244). -/
structure DetectionRecord where
  timestamp : String
  detections : List DetectedObject
deriving DecidableEq, Repr

/-- Payload of one triggered download. -/
inductive DownloadPayload where
  | image (data : Canvas)
  | jsonRecord (record : DetectionRecord)
deriving DecidableEq, Repr

/-- One triggered file download (`link.click()`). -/
structure Download where
  filename : String
  payload : DownloadPayload
deriving DecidableEq, Repr

/-- `saveImage` (source lines 231-254).  `nowPng` and `nowJson` are the two
separate `Date.now()` reads (lines 236 and 250) and `nowIso` the
`new Date().toISOString()` read (line 242), all taken at save time — the
function receives no timestamp from the capture.  Returns the list of
triggered downloads in order. -/
def saveImage (s : CompState) (nowPng : ℤ) (nowIso : String) (nowJson : ℤ) :
    List Download :=
  match s.capturedImage with
  | none => []
  | some img =>
      [ ⟨"object-detection-" ++ toString nowPng ++ ".png", DownloadPayload.image img⟩
      , ⟨"object-detection-" ++ toString nowJson ++ ".json",
          DownloadPayload.jsonRecord ⟨nowIso, s.detectedObjects⟩⟩ ]

/-- Events of the detection-loop machine.  `frameFires` is a scheduled
`requestAnimationFrame` callback running `detectObjects` up to its first
await; `detectResolves o` is the awaited `model.detect` call settling with
outcome `o`; `capturePress` and `resumePress` are the button actions as
wired in the JSX (source lines 410-446). -/
inductive LoopEvent where
  | frameFires
  | detectResolves (outcome : Except String (List Prediction))
  | capturePress
  | resumePress

/-- Runtime state: the component state plus the scheduler facts that drive
the loop — whether a `requestAnimationFrame` callback for `detectObjects`
is currently scheduled and whether a `model.detect` call is in flight.
The model covers one detection-loop generation at a time, which is all the
stated theorems traverse. -/
structure LoopState where
  comp : CompState
  pending : Bool
  inFlight : Bool
deriving DecidableEq, Repr

/-- Small-step semantics of the loop and the user actions, from
`detectObjects` (source lines 301-332), `captureImage`/`resumeCamera`, the
JSX button wiring (lines 410-446) and the effect cleanup (lines 335-339):
* `frameFires`: the scheduled callback runs; with `readyState === 4` it
  starts `model.detect` (the `requestAnimationFrame` re-arm at line 324
  happens only after that await settles), otherwise it re-arms at once.
* `detectResolves (ok ps)`: publishes `ps` as `lastPredictions`, draws the
  overlay on the screen canvas, publishes the mapped `detectedObjects`,
  then re-arms the next frame.  `detectObjects` itself never reads
  `isPaused`, so all of this happens even if the session froze meanwhile.
* `detectResolves (error _)`: the catch (lines 325-328) sets the error
  state; the re-arm at line 324 is never reached, so nothing is scheduled.
* `capturePress`: wired only while live (the frozen-mode capture button,
  lines 430-436, is disabled with no handler).  Runs `captureImage`; if
  the session became frozen, the effect cleanup cancels the scheduled
  frame; an awaited `model.detect` cannot be cancelled.
* `resumePress`: wired only while frozen.  Runs `resumeCamera`; the effect
  re-runs and calls `detectObjects` immediately, which with
  `readyState === 4` starts a `model.detect` call. -/
def step (s : LoopState) : LoopEvent → LoopState
  | .frameFires =>
      if s.pending then
        if s.comp.video.readyState = 4 then
          { s with pending := false, inFlight := true }
        else
          { s with pending := true }
      else s
  | .detectResolves outcome =>
      if s.inFlight then
        match outcome with
        | .ok predictions =>
            { comp := { s.comp with
                          lastPredictions := predictions
                        , screenCanvas := drawDetections s.comp.screenCanvas predictions
                        , detectedObjects := predictions.map toDetectedObject }
            , pending := true
            , inFlight := false }
        | .error _ =>
            { comp := { s.comp with error := some detectErrorMsg }
            , pending := false
            , inFlight := false }
      else s
  | .capturePress =>
      if s.comp.isPaused then s
      else
        let c := captureImage s.comp
        { comp := c
        , pending := if c.isPaused then false else s.pending
        , inFlight := s.inFlight }
  | .resumePress =>
      if s.comp.isPaused then
        let c := resumeCamera s.comp
        if c.modelLoaded then
          if c.video.readyState = 4 then { comp := c, pending := s.pending, inFlight := true }
          else { comp := c, pending := true, inFlight := s.inFlight }
        else { comp := c, pending := s.pending, inFlight := s.inFlight }
      else s

/-- Run a list of events through `step`. -/
def run (s : LoopState) (es : List LoopEvent) : LoopState :=
  es.foldl step s

/-! ### Concrete states used by witnesses and counterexamples -/

/-- A sample detection: `person` at confidence `0.9`, box `(10,20,30,40)`. -/
def predA : Prediction := ⟨"person", 9 / 10, (10, 20, 30, 40)⟩

/-- A second sample detection: `cat` at confidence `0.8`, box `(50,60,70,80)`. -/
def predB : Prediction := ⟨"cat", 4 / 5, (50, 60, 70, 80)⟩

/-- A mounted, live component: model loaded, a 640×480 stream playing
(`readyState = 4`, current frame `7`), nothing detected yet. -/
def compLive : CompState :=
  { modelLoaded := true
  , isLoading := false
  , error := none
  , isFrontCamera := false
  , streamRef := some 1
  , detectedObjects := []
  , isPaused := false
  , capturedImage := none
  , lastPredictions := []
  , video := ⟨4, 7, 640, 480⟩
  , screenCanvas := ⟨640, 480, []⟩ }

/-- A freshly mounted component before any camera acquisition. -/
def compInit : CompState :=
  { modelLoaded := false
  , isLoading := true
  , error := none
  , isFrontCamera := false
  , streamRef := none
  , detectedObjects := []
  , isPaused := false
  , capturedImage := none
  , lastPredictions := []
  , video := ⟨0, 0, 0, 0⟩
  , screenCanvas := ⟨0, 0, []⟩ }

/-- `compLive` after the loop has published `[predA]`. -/
def compLiveA : CompState :=
  { compLive with
      lastPredictions := [predA]
    , detectedObjects := [toDetectedObject predA]
    , screenCanvas := drawDetections compLive.screenCanvas [predA] }

/-- Camera environment where the front camera fails but the rear camera is
available as stream `5`. -/
def envFrontFails : Bool → Option Nat := fun front => if front then none else some 5

/-- Live loop state over `compLive` with the next frame scheduled. -/
def loopLive : LoopState := ⟨compLive, true, false⟩

/-- Live loop state over `compLiveA` with the next frame scheduled. -/
def loopLiveA : LoopState := ⟨compLiveA, true, false⟩

/-- Live loop state over `compLive` with a `model.detect` call in flight
and no frame scheduled (the re-arm happens only after the await). -/
def loopInFlight : LoopState := ⟨compLive, false, true⟩

/-- A frozen loop state: `compLive` after a successful capture, loop idle. -/
def loopFrozen : LoopState :=
  ⟨captureImage compLive, false, false⟩

/-- The race trace: the scheduled frame fires and starts `model.detect`;
the user presses capture while that call is still in flight; the call then
resolves with `[predB]`. -/
def raceEvents : List LoopEvent :=
  [LoopEvent.frameFires, LoopEvent.capturePress,
   LoopEvent.detectResolves (Except.ok [predB])]

/-! ### Helper lemmas -/

/-- A full-surface `clearRect` resets the visible content. -/
theorem clearRect_full (c : Canvas) :
    c.clearRect 0 0 c.width c.height = ⟨c.width, c.height, []⟩ := by
  simp [Canvas.clearRect]

/-- `drawPrediction` appends exactly `detectionOps p`. -/
theorem drawPrediction_spec (c : Canvas) (p : Prediction) :
    drawPrediction c p = ⟨c.width, c.height, c.content ++ detectionOps p⟩ := by
  rcases p with ⟨pc, ps, x, y, w, h⟩
  simp [drawPrediction, detectionOps, Canvas.strokeRect, Canvas.fillRect, Canvas.fillText]

/-- Folding `drawPrediction` over a prediction list appends the
concatenation of the per-prediction operations, in list order. -/
theorem foldl_drawPrediction (S : List Prediction) :
    ∀ c : Canvas, S.foldl drawPrediction c =
      ⟨c.width, c.height, c.content ++ S.flatMap detectionOps⟩ := by
  induction S with
  | nil => intro c; simp
  | cons p S ih =>
      intro c
      rw [List.foldl_cons, ih, drawPrediction_spec]
      simp

/-- Characterisation of `drawDetections`: whatever the previous content of
the surface, the content afterwards is exactly the operations generated by
the prediction list, in order. -/
theorem drawDetections_spec (c : Canvas) (S : List Prediction) :
    drawDetections c S = ⟨c.width, c.height, S.flatMap detectionOps⟩ := by
  rw [drawDetections, clearRect_full, foldl_drawPrediction]
  simp

/-- The capture canvas keeps the screen canvas's intrinsic resolution. -/
theorem captureComposite_dims (s : CompState) :
    (captureComposite s).width = s.screenCanvas.width ∧
    (captureComposite s).height = s.screenCanvas.height := by
  by_cases h : s.lastPredictions.length > 0 <;>
    simp [captureComposite, Canvas.drawVideo, drawDetections_spec, h]

/-- Behaviour of `captureImage` on a ready video and a non-degenerate
canvas: the composite is encoded and stored, the session freezes, and the
mapped `lastPredictions` become `detectedObjects`. -/
theorem captureImage_spec (s : CompState) (hReady : s.video.readyState = 4)
    (hW : s.screenCanvas.width ≠ 0) (hH : s.screenCanvas.height ≠ 0) :
    captureImage s =
      { s with capturedImage := some (captureComposite s)
             , isPaused := true
             , detectedObjects := s.lastPredictions.map toDetectedObject } := by
  have hd := captureComposite_dims s
  rw [captureImage, if_neg (by simp [hReady]), toDataURL,
    if_neg (by rw [hd.1, hd.2]; exact not_or.mpr ⟨hW, hH⟩)]

/-- A frozen, idle loop state is a fixed point of every event other than
`resumePress`: the frozen capture button is disabled, no frame is
scheduled and no detect call is in flight. -/
theorem step_frozen_fix (t : LoopState) (hP : t.comp.isPaused = true)
    (hpend : t.pending = false) (hIF : t.inFlight = false)
    (e : LoopEvent) (he : e ≠ LoopEvent.resumePress) :
    step t e = t := by
  cases e with
  | frameFires => simp [step, hpend]
  | detectResolves o => simp [step, hIF]
  | capturePress => simp [step, hP]
  | resumePress => exact absurd rfl he

/-- A frozen, idle loop state is unchanged by any event sequence that does
not contain `resumePress`. -/
theorem run_frozen_fix (t : LoopState) (hP : t.comp.isPaused = true)
    (hpend : t.pending = false) (hIF : t.inFlight = false) :
    ∀ es : List LoopEvent, LoopEvent.resumePress ∉ es → run t es = t := by
  intro es hes
  induction es with
  | nil => rfl
  | cons e es ih =>
      have he : e ≠ LoopEvent.resumePress := fun h => hes (by simp [h])
      have hes' : LoopEvent.resumePress ∉ es := fun h => hes (List.mem_cons_of_mem _ h)
      show run (step t e) es = t
      rw [step_frozen_fix t hP hpend hIF e he]
      exact ih hes'

/-! ### Claims -/

/-- Claim C1 (code bug).  The claim states that a successful capture with a
non-empty Detection Set encodes a buffer holding both the video pixels and
the overlay.  In the code, `captureImage` draws the video frame onto the
fresh capture canvas (lines 184-189) and then calls `drawDetections`
(line 193), whose first operation is a full-surface `clearRect`
(line 123) — erasing the just-drawn video frame.  Evaluated at a live
state with one detection (`compLiveA`), the encoded capture contains only
the three overlay operations and no video-frame pixels; with an empty
Detection Set (`compLive`), where `drawDetections` is skipped, the video
frame survives. -/
theorem captureImage_erases_video_frame :
    (captureImage compLiveA).capturedImage = some ⟨640, 480, detectionOps predA⟩ ∧
    (detectionOps predA).all (fun op => !op.isDrawVideo) = true ∧
    (captureImage compLive).capturedImage
      = some ⟨640, 480, [DrawOp.drawVideo 7 0 0 640 480]⟩ :=
  ⟨rfl, by decide, rfl⟩

/-- Claim C2, counterexample.  From a live state with a `model.detect`
call in flight, a failing detector invocation surfaces the user-visible
error, but no next iteration is scheduled: the `requestAnimationFrame`
re-arm at line 324 sits after the `await` inside the `try`, so the catch
(lines 325-328) skips it and the loop dies. -/
theorem detect_failure_not_rescheduled :
    (step loopInFlight (LoopEvent.detectResolves (Except.error "boom"))).comp.error
      = some detectErrorMsg ∧
    (step loopInFlight (LoopEvent.detectResolves (Except.error "boom"))).pending = false :=
  ⟨rfl, rfl⟩

/-- Claim C2, amended.  When a detector invocation fails, the loop
surfaces the non-fatal user-visible error message, but the next iteration
is NOT scheduled: a single failed inference terminates the loop (until the
detection effect re-runs for another reason). -/
theorem detect_failure_surfaces_error_without_reschedule (s : LoopState) (msg : String)
    (hIF : s.inFlight = true) :
    step s (LoopEvent.detectResolves (Except.error msg)) =
      ⟨{ s.comp with error := some detectErrorMsg }, false, false⟩ := by
  simp [step, hIF]

/-- Witness for `detect_failure_surfaces_error_without_reschedule`. -/
theorem detect_failure_surfaces_error_witness :
    step loopInFlight (LoopEvent.detectResolves (Except.error "boom")) =
      ⟨{ loopInFlight.comp with error := some detectErrorMsg }, false, false⟩ :=
  detect_failure_surfaces_error_without_reschedule loopInFlight "boom" rfl

/-- Claim C3, counterexample.  With an environment in which the front
camera fails while the rear camera is available (stream `5`), a call to
`setupCamera` requesting the front camera surfaces the terminal error
immediately: no fallback to the rear mode is attempted (`streamRef`
remains `none`), even though the rear camera would have succeeded.  The
fallback branch of `setupCamera` (lines 97-104) only exists for
`useFrontCamera = false`. -/
theorem front_failure_no_fallback :
    setupCamera envFrontFails compInit true = { compInit with error := some cameraFailMsg } ∧
    envFrontFails false = some 5 :=
  ⟨rfl, rfl⟩

/-- Claim C3, amended.  Full characterisation of the fallback policy of
`setupCamera` for an environment with fixed per-facing outcomes: a
rear-camera request that fails falls back exactly once to the front camera
and surfaces the terminal error only after both modes failed (the
facing-mode flag is set to front in both fallback outcomes, because
`setIsFrontCamera(true)` at line 101 runs whether or not the inner attempt
succeeded); a front-camera request that fails surfaces the terminal error
immediately, with no fallback. -/
theorem setupCamera_fallback_policy (rearRes frontRes : Option Nat) (s : CompState) :
    (setupCamera (fun front => if front then frontRes else rearRes) s false =
      match rearRes with
      | some st => { s with streamRef := some st, error := none }
      | none =>
        match frontRes with
        | some st => { s with streamRef := some st, error := none, isFrontCamera := true }
        | none => { s with error := some cameraFailMsg, isFrontCamera := true }) ∧
    (setupCamera (fun front => if front then frontRes else rearRes) s true =
      match frontRes with
      | some st => { s with streamRef := some st, error := none }
      | none => { s with error := some cameraFailMsg }) := by
  cases rearRes <;> cases frontRes <;> simp [setupCamera]

/-- Claim C4, counterexample.  Start from a live state whose loop has
published `[predA]`; the scheduled frame fires and starts `model.detect`;
the user captures (the Capture embeds `[predA]`); the in-flight detect
then resolves with `[predB]`.  The published `detectedObjects` — the very
list the Capture exposes to the list UI and to `saveImage` — is
overwritten with `[predB]` while the session is still Frozen, so the
Capture's embedded Detection Set no longer equals what was last published
before the freeze instant. -/
theorem capture_set_overwritten_while_frozen :
    (run loopLiveA raceEvents).comp.isPaused = true ∧
    (run loopLiveA raceEvents).comp.detectedObjects = [toDetectedObject predB] ∧
    [toDetectedObject predB] ≠ [toDetectedObject predA] :=
  ⟨rfl, rfl, by simp [toDetectedObject, predA, predB]⟩

/-- Claim C4, amended.  Provided no detector invocation is in flight at
the freeze instant, a capture from a live, ready state embeds exactly the
most recent Detection Set published before the freeze
(`detectedObjects = lastPredictions.map toDetectedObject`), and the frozen
state — the Capture included — is unchanged by every further event until a
resume.  Applied at each freeze of a capture→resume→capture sequence this
gives each Capture the set last published before its own freeze, with no
leakage from the prior Capture. -/
theorem capture_embeds_last_published (s : LoopState) (es : List LoopEvent)
    (hLive : s.comp.isPaused = false)
    (hReady : s.comp.video.readyState = 4)
    (hW : s.comp.screenCanvas.width ≠ 0)
    (hH : s.comp.screenCanvas.height ≠ 0)
    (hIF : s.inFlight = false)
    (hNoResume : LoopEvent.resumePress ∉ es) :
    (step s LoopEvent.capturePress).comp.detectedObjects
      = s.comp.lastPredictions.map toDetectedObject ∧
    run (step s LoopEvent.capturePress) es = step s LoopEvent.capturePress := by
  have hc := captureImage_spec s.comp hReady hW hH
  have hstep : step s LoopEvent.capturePress = ⟨captureImage s.comp, false, s.inFlight⟩ := by
    simp [step, hLive, hc]
  constructor
  · rw [hstep, hc]
  · refine run_frozen_fix _ ?_ ?_ ?_ es hNoResume
    · rw [hstep, hc]
    · rw [hstep]
    · rw [hstep]; exact hIF

/-- Witness for `capture_embeds_last_published`. -/
theorem capture_embeds_last_published_witness :
    (step loopLiveA LoopEvent.capturePress).comp.detectedObjects
      = loopLiveA.comp.lastPredictions.map toDetectedObject ∧
    run (step loopLiveA LoopEvent.capturePress) [LoopEvent.frameFires]
      = step loopLiveA LoopEvent.capturePress :=
  capture_embeds_last_published loopLiveA [LoopEvent.frameFires] rfl rfl
    (by decide) (by decide) rfl (by simp)

/-- Claim C5 (code bug).  The claim — the Detection Loop never runs while
Session Mode is Frozen — is the code's evident intent (the detection
effect early-returns on `isPaused`, line 296, and its cleanup cancels the
scheduled frame, lines 335-339), but an in-flight `model.detect` call
cannot be cancelled: in the trace `frameFires; capturePress;
detectResolves (ok [predB])` the detect call resolves after the freeze,
publishes a new Detection Set, redraws the overlay, and re-arms the loop
(`detectObjects` never reads `isPaused`), and the next frame starts a new
detector invocation — all while the session is Frozen. -/
theorem loop_runs_while_frozen :
    (run loopLive raceEvents).comp.isPaused = true ∧
    (run loopLive raceEvents).comp.lastPredictions = [predB] ∧
    (run loopLive raceEvents).pending = true ∧
    (step (run loopLive raceEvents) LoopEvent.frameFires).inFlight = true ∧
    (step (run loopLive raceEvents) LoopEvent.frameFires).comp.isPaused = true :=
  ⟨rfl, rfl, rfl, rfl, rfl⟩

/-- Claim C6.  The Surface Sizer computes
`scale = min(containerWidth / videoWidth, containerHeight / videoHeight)`,
applies the scaled native size as the display size of both the video
element and the overlay canvas, and sets the canvas intrinsic resolution
to the video's native resolution; for native `(1920, 1080)` in a container
`(800, 600)` the display size is exactly `(800, 450)` and the intrinsic
resolution stays `(1920, 1080)`. -/
theorem surface_sizer_spec (vw vh cw ch : ℚ) :
    (onLoadedMetadata vw vh cw ch).videoStyleWidth = vw * min (cw / vw) (ch / vh) ∧
    (onLoadedMetadata vw vh cw ch).videoStyleHeight = vh * min (cw / vw) (ch / vh) ∧
    (onLoadedMetadata vw vh cw ch).canvasStyleWidth
      = (onLoadedMetadata vw vh cw ch).videoStyleWidth ∧
    (onLoadedMetadata vw vh cw ch).canvasStyleHeight
      = (onLoadedMetadata vw vh cw ch).videoStyleHeight ∧
    (onLoadedMetadata vw vh cw ch).canvasWidth = vw ∧
    (onLoadedMetadata vw vh cw ch).canvasHeight = vh ∧
    onLoadedMetadata 1920 1080 800 600 = ⟨800, 450, 800, 450, 1920, 1080⟩ := by
  refine ⟨rfl, rfl, rfl, rfl, rfl, rfl, ?_⟩
  simp only [onLoadedMetadata, SizedSurfaces.mk.injEq]
  norm_num [min_def]

/-- Claim C7.  `drawDetections` first fully clears the surface and then
draws each detection in the order of the Detection Set, so the surface
content afterwards is exactly the operations generated by the set —
independent of whatever was on the surface before (no accumulation), equal
across any two surfaces, and idempotent for the same set. -/
theorem drawDetections_depends_only_on_detections (c c' : Canvas) (S : List Prediction) :
    (drawDetections c S).content = S.flatMap detectionOps ∧
    (drawDetections c S).content = (drawDetections c' S).content ∧
    drawDetections (drawDetections c S) S = drawDetections c S := by
  simp [drawDetections_spec]

/-- Claim C8.  While the session is Frozen the capture button is rendered
disabled with no handler (source lines 430-436), so a capture press in the
Frozen state changes nothing: the mode stays Frozen and the stored Capture
(image and Detection Set) is untouched. -/
theorem capture_ignored_while_frozen (s : LoopState) (hP : s.comp.isPaused = true) :
    step s LoopEvent.capturePress = s := by
  simp [step, hP]

/-- Witness for `capture_ignored_while_frozen`. -/
theorem capture_ignored_while_frozen_witness :
    step loopFrozen LoopEvent.capturePress = loopFrozen :=
  capture_ignored_while_frozen loopFrozen rfl

/-- Claim C9, counterexample.  `captureImage` reads no clock and the
stored Capture carries no timestamp, so for a capture taken at unix-millis
1000 and saved at 2000 both filenames carry the save-time value 2000 — the
image is not named with the capture timestamp. -/
theorem save_filename_uses_save_time :
    (saveImage (captureImage compLive) 2000 "2024-01-01T00:00:02.000Z" 2000).map
        (fun d => d.filename)
      = ["object-detection-2000.png", "object-detection-2000.json"] ∧
    "object-detection-2000.png" ≠ "object-detection-1000.png" :=
  ⟨rfl, by decide⟩

/-- Claim C9, amended.  A save with a live Capture triggers exactly two
downloads, in order: the still image named
`object-detection-<unix-millis>.png` and the JSON record
`{ timestamp, detections }` named `object-detection-<unix-millis>.json` —
where the two unix-millis values are two separate `Date.now()` reads taken
at save time (not a stored capture timestamp) and `timestamp` is the
save-time ISO-8601 string. -/
theorem saveImage_two_downloads (s : CompState) (img : Canvas) (tPng tJson : ℤ)
    (iso : String) (h : s.capturedImage = some img) :
    saveImage s tPng iso tJson =
      [ ⟨"object-detection-" ++ toString tPng ++ ".png", DownloadPayload.image img⟩
      , ⟨"object-detection-" ++ toString tJson ++ ".json",
          DownloadPayload.jsonRecord ⟨iso, s.detectedObjects⟩⟩ ] ∧
    (saveImage s tPng iso tJson).length = 2 := by
  simp [saveImage, h]

/-- Witness for `saveImage_two_downloads`. -/
theorem saveImage_two_downloads_witness :
    saveImage (captureImage compLive) 1000 "2024-01-01T00:00:01.000Z" 1000 =
      [ ⟨"object-detection-" ++ toString (1000 : ℤ) ++ ".png",
          DownloadPayload.image ⟨640, 480, [DrawOp.drawVideo 7 0 0 640 480]⟩⟩
      , ⟨"object-detection-" ++ toString (1000 : ℤ) ++ ".json",
          DownloadPayload.jsonRecord
            ⟨"2024-01-01T00:00:01.000Z", (captureImage compLive).detectedObjects⟩⟩ ] ∧
    (saveImage (captureImage compLive) 1000 "2024-01-01T00:00:01.000Z" 1000).length = 2 :=
  saveImage_two_downloads (captureImage compLive) ⟨640, 480, [DrawOp.drawVideo 7 0 0 640 480]⟩
    1000 1000 "2024-01-01T00:00:01.000Z" rfl

/-- Claim C10.  `captureImage` composites exclusively on the freshly
created off-screen capture canvas: on every code path — not ready,
encoding failure, success — the on-screen overlay canvas is left exactly
as it was. -/
theorem captureImage_preserves_screen_canvas (s : CompState) :
    (captureImage s).screenCanvas = s.screenCanvas := by
  unfold captureImage
  split
  · rfl
  · split <;> rfl

end CameraTest
